import Mathlib

/-!
Verification of benchmarking and reporting scripts for a health-IoT
time-series database comparison (PostgreSQL / InfluxDB / MongoDB).

The Lean definitions below are shallow embeddings of the Python sources:

* `01_dataset/01_generate_health_iot_dataset.py` (dataset generator/validator)
* `03_influxdb/10_data_import.py` (CSV importer with retry loop)
* `03_influxdb/12_query_performance.py` (query performance tester)
* `03_influxdb/13_security_tokens.py` (token CRUD wrappers)
* `03_influxdb/15_indexing_performance.py` (index effectiveness analyzer)
* `05_becnhmarking/24_results_collector.py` (metric normalization/scoring)
* `05_becnhmarking/26_security_analysis.py` (compliance string matching)

Numbers are modelled as `ℚ` (the Python code uses floats only for simple
arithmetic whose properties of interest are rounding-mode insensitive);
Python's `round(x, 2)` is modelled as `round2`.  Effectful SDK calls are
modelled by explicit outcome parameters, exceptions by `Except`/`Option`.
-/

/-- Rounding to the nearest integer, computably on `ℚ` (equal to Mathlib's
`round`, see `pyRound_eq_round`). -/
def pyRound (q : ℚ) : ℤ := Rat.floor (q + 1 / 2)

/-- Python's `round(x, 2)`: round to two decimal places.
(Python rounds ties to even on binary floats; every property proved below
depends only on monotonicity and on fixed points at 2-decimal values, which
are insensitive to the tie-breaking rule.) -/
def round2 (q : ℚ) : ℚ := (pyRound (q * 100) : ℚ) / 100

/-- Python `min` over a nonempty list (`0` on `[]`, unreachable in the code). -/
def listMin : List ℚ → ℚ
  | [] => 0
  | a :: l => l.foldl min a

/-- Python `max` over a nonempty list (`0` on `[]`, unreachable in the code). -/
def listMax : List ℚ → ℚ
  | [] => 0
  | a :: l => l.foldl max a

/-- Python `statistics.mean`. -/
def listMean (l : List ℚ) : ℚ := l.sum / l.length

/-- Python substring test `needle in hay` on strings. -/
def containsSub (needle hay : String) : Bool := decide (needle.data <:+: hay.data)

/-- Python `str.lower()`, modelled character-wise (all data here is ASCII). -/
def strToLower (s : String) : String := String.mk (s.data.map Char.toLower)

/- ### `15_indexing_performance.py` — index effectiveness (claim C7) -/

/-- `test_index_effectiveness`, lines 384–387: the performance improvement
ratio for one test, from the averaged times with and without narrow filters. -/
def computeImprovement (timeWith timeWithout : ℚ) : ℚ :=
  if 0 < timeWith ∧ 0 < timeWithout then timeWithout / timeWith else 1

/-- The "Excellent optimization" message of `_generate_index_recommendation`
(`fmt` stands for Python's `{improvement:.1f}` float formatting). -/
def excellentMsg (fmt : ℚ → String) (imp : ℚ) : String :=
  "Excellent optimization (" ++ fmt imp ++ "x improvement). Keep current data organization."

/-- The "Good optimization" message of `_generate_index_recommendation`. -/
def goodMsg (fmt : ℚ → String) (imp : ℚ) : String :=
  "Good optimization (" ++ fmt imp ++ "x improvement). Consider adding more specific filters."

/-- The "Minor optimization" message of `_generate_index_recommendation`. -/
def minorMsg (fmt : ℚ → String) (imp : ℚ) : String :=
  "Minor optimization (" ++ fmt imp ++ "x improvement). Review query patterns."

/-- The "No significant improvement" message of `_generate_index_recommendation`. -/
def noSignificantMsg : String :=
  "No significant improvement. Consider restructuring data or queries."

/-- `InfluxDBIndexAnalyzer._generate_index_recommendation` (lines 502–514).
`fmt` abstracts Python's `.1f` float formatting; `queryType`, `scanWith`,
`scanWithout` are the unused parameters of the source function. -/
def generateIndexRecommendation (fmt : ℚ → String) (queryType : String)
    (improvement : ℚ) (scanWith scanWithout : List (String × Nat)) : String :=
  if improvement > 5 then excellentMsg fmt improvement
  else if improvement > 2 then goodMsg fmt improvement
  else if improvement > 1 then minorMsg fmt improvement
  else noSignificantMsg

/- ### `10_data_import.py` — CSV importer with retry loop (claim C1) -/

/-- Default of the `max_retries` parameter of
`HealthIoTDataImporter.import_data` (line 155). -/
def importDataMaxRetriesDefault : Nat := 3

/-- Effect of processing one batch in `import_data`: how many
`write_api.write` calls were made, how much was added to `imported_points`
and to `failed_batches`, and the backoff sleeps (in seconds) performed. -/
structure BatchOutcome where
  attempts : Nat
  imported : Nat
  failedInc : Nat
  sleeps : List Nat
  deriving DecidableEq

/-- The `for attempt in range(max_retries)` loop of `import_data`
(lines 195–220), started at attempt index `k`.  `succeeds a` says whether the
`write_api.write` call at attempt index `a` returns normally (otherwise it
raises `InfluxDBError`).  On success the loop `break`s after adding
`len(batch)` to `imported_points`; on a non-final failure it sleeps
`2 ** attempt` seconds and retries; on the final failure it increments
`failed_batches`. -/
def runBatchGo (succeeds : Nat → Bool) (batchLen maxRetries : Nat) :
    Nat → Nat → BatchOutcome
  | _, 0 => { attempts := 0, imported := 0, failedInc := 0, sleeps := [] }
  | k, rem + 1 =>
    if succeeds k then
      { attempts := 1, imported := batchLen, failedInc := 0, sleeps := [] }
    else if k < maxRetries - 1 then
      let rest := runBatchGo succeeds batchLen maxRetries (k + 1) rem
      { attempts := rest.attempts + 1, imported := rest.imported,
        failedInc := rest.failedInc, sleeps := 2 ^ k :: rest.sleeps }
    else
      { attempts := 1, imported := 0, failedInc := 1, sleeps := [] }

/-- The retry loop body, entered with `max_retries - k` remaining attempts
(`runBatch succeeds batchLen maxRetries 0` is the loop as executed). -/
def runBatch (succeeds : Nat → Bool) (batchLen maxRetries k : Nat) : BatchOutcome :=
  runBatchGo succeeds batchLen maxRetries k (maxRetries - k)

def chunkListGo (bs : Nat) : Nat → List α → List (List α)
  | _, [] => []
  | 0, _ :: _ => []
  | fuel + 1, a :: l => (a :: l).take bs :: chunkListGo bs fuel ((a :: l).drop bs)

/-- The batching `points[i : i + batch_size]` of the
`for i in range(0, total_points, batch_size)` loop (lines 190–191); the fuel
`l.length` bounds the number of slices taken.
(`batch_size = 0` raises `ValueError` in Python; modelled as no batches.) -/
def chunkList (bs : Nat) (l : List α) : List (List α) :=
  if bs = 0 then [] else chunkListGo bs l.length l

/-- The batch loop of `import_data` (lines 182–223): accumulates
`imported_points` and `failed_batches` over the batches.  `succeeds i a`
says whether the write of batch number `i` succeeds at attempt `a`. -/
def importData (maxRetries bs : Nat) (succeeds : Nat → Nat → Bool)
    (points : List α) : Nat × Nat :=
  (chunkList bs points).enum.foldl
    (fun acc ib =>
      let o := runBatch (succeeds ib.1) ib.2.length maxRetries 0
      (acc.1 + o.imported, acc.2 + o.failedInc))
    (0, 0)

/- ### `26_security_analysis.py` — compliance scoring (claims C2, C3) -/

/-- One entry of a hard-coded security feature list (e.g. `pg_features`). -/
structure SecurityFeature where
  feature : String
  implementation : String
  strength : String
  description : String
  hipaa_compliant : Bool
  gdpr_compliant : Bool

/-- One security framework of `self.security_frameworks` (lines 48–79). -/
structure Framework where
  name : String
  requirements : List String
  deriving DecidableEq

/-- `self.security_frameworks` (lines 48–79), keyed as in the source dict. -/
def securityFrameworks : List (String × Framework) :=
  [("hipaa", ⟨"HIPAA",
      ["access_controls", "audit_trails", "data_encryption",
       "authentication", "authorization"]⟩),
   ("gdpr", ⟨"GDPR",
      ["data_protection", "consent_management", "right_to_erasure",
       "data_portability", "privacy_by_design"]⟩),
   ("iso_27001", ⟨"ISO 27001",
      ["risk_assessment", "security_policies", "access_control",
       "cryptography", "physical_security"]⟩)]

/-- Lines 411–415 of `_assess_compliance`: a requirement is supported when it
occurs as a substring of some feature's lowercased description or name. -/
def featureSupport (req : String) (features : List SecurityFeature) : Bool :=
  features.any fun f =>
    containsSub req (strToLower f.description) || containsSub req (strToLower f.feature)

/-- One entry of the `compliance_details` list built in `_assess_compliance`. -/
structure ComplianceDetail where
  requirement : String
  status : String
  supportingFeatures : List String
  notes : String

/-- Lines 417–438: the detail entry recorded for one requirement. -/
def complianceDetail (database : String) (features : List SecurityFeature)
    (req : String) : ComplianceDetail :=
  if featureSupport req features then
    { requirement := req, status := "Compliant",
      supportingFeatures :=
        (features.filter fun f =>
          containsSub req (strToLower f.description)
            || containsSub req (strToLower f.feature)).map (fun f => f.feature),
      notes := "" }
  else
    { requirement := req, status := "Non-Compliant", supportingFeatures := [],
      notes := "No native " ++ database ++ " feature found" }

/-- The per-framework result of `_assess_compliance` (lines 442–447). -/
structure FrameworkCompliance where
  framework : String
  score : ℚ
  status : String
  details : List ComplianceDetail

/-- `SecurityAnalyzer._get_compliance_status` (lines 451–460). -/
def getComplianceStatus (score : ℚ) : String :=
  if score ≥ 90 then "Fully Compliant"
  else if score ≥ 70 then "Mostly Compliant"
  else if score ≥ 50 then "Partially Compliant"
  else "Non-Compliant"

/-- The body of the framework loop of `_assess_compliance` (lines 401–447):
`score` counts the supported requirements, the stored score is
`(score / max_score) * 100` rounded to 2 decimals, and the status comes from
the unrounded score. -/
def assessFramework (features : List SecurityFeature) (database : String)
    (fw : String × Framework) : String × FrameworkCompliance :=
  let reqs := fw.2.requirements
  let score : ℚ := ((reqs.filter fun r => featureSupport r features).length : ℚ)
  let maxScore : ℚ := (reqs.length : ℚ)
  let complianceScore := if maxScore > 0 then score / maxScore * 100 else 0
  (fw.1,
   { framework := fw.2.name, score := round2 complianceScore,
     status := getComplianceStatus complianceScore,
     details := reqs.map (complianceDetail database features) })

/-- `SecurityAnalyzer._assess_compliance` (lines 395–449). -/
def assessCompliance (features : List SecurityFeature) (database : String) :
    List (String × FrameworkCompliance) :=
  securityFrameworks.map (assessFramework features database)

/-- `pg_features` of `analyze_postgresql_security` (lines 119–160). -/
def pgFeatures : List SecurityFeature :=
  [⟨"Row Level Security (RLS)", "Native", "High",
    "Fine-grained access control at row level", true, true⟩,
   ⟨"SSL/TLS Encryption", "Native", "High", "Encrypted connections", true, true⟩,
   ⟨"Column Encryption", "pgcrypto extension", "Medium",
    "Column-level encryption support", true, true⟩,
   ⟨"Audit Logging", "pgaudit extension", "High",
    "Comprehensive audit trail", true, true⟩,
   ⟨"Role-Based Access Control", "Native", "High",
    "Granular permissions system", true, true⟩]

/-- `influx_features` of `analyze_influxdb_security` (lines 213–254). -/
def influxFeatures : List SecurityFeature :=
  [⟨"Token-Based Authentication", "Native", "High",
    "API tokens for authentication", true, true⟩,
   ⟨"TLS/SSL Encryption", "Native", "High", "Encrypted communications", true, true⟩,
   ⟨"User Management", "Native", "Medium",
    "Basic user and permission system", true, false⟩,
   ⟨"Audit Logs", "Enterprise Only", "Low",
    "Limited in open source version", false, false⟩,
   ⟨"Data Retention Policies", "Native", "High",
    "Automatic data expiration", true, true⟩]

/-- `mongo_features` of `analyze_mongodb_security` (lines 310–351). -/
def mongoFeatures : List SecurityFeature :=
  [⟨"Role-Based Access Control", "Native", "High",
    "Fine-grained role permissions", true, true⟩,
   ⟨"Field-Level Encryption", "Enterprise Only", "High",
    "Client-side field encryption", true, true⟩,
   ⟨"Audit Logging", "Enterprise Only", "Medium",
    "Comprehensive audit trail", true, true⟩,
   ⟨"TLS/SSL Encryption", "Native", "High", "Encrypted connections", true, true⟩,
   ⟨"LDAP Integration", "Enterprise Only", "Medium",
    "Enterprise directory integration", true, true⟩]

/- ### `24_results_collector.py` — comparison table and scoring (claims C4, C5) -/

/-- The `comparison` dict of `generate_comparison_table` (lines 262–270):
one entry per database for each metric column. -/
structure Comparison where
  database : List String
  ingestion_rate : List ℚ
  query_latency : List ℚ
  storage_size : List ℚ
  index_efficiency : List ℚ
  security_score : List ℚ
  total_score : List ℚ

/-- Python's truthiness test `any(values)` on a list of numbers. -/
def anyNonzero (l : List ℚ) : Bool := l.any fun v => decide (v ≠ 0)

/-- Bool check that every metric value in a list is nonnegative. -/
def allNonneg (l : List ℚ) : Bool := l.all fun v => decide (0 ≤ v)

/-- `_normalize_and_score` lines 309–314: rescale a higher-is-better metric
to `v / max(values) * 100` (only when some value is nonzero and the max is
positive). -/
def normalizeHigher (l : List ℚ) : List ℚ :=
  if anyNonzero l then
    if listMax l > 0 then l.map fun v => v / listMax l * 100 else l
  else l

/-- `_normalize_and_score` lines 317–330: invert a lower-is-better metric to
`(1 - v / max(values)) * 100` (only when some value is nonzero and the max is
positive). -/
def normalizeLower (l : List ℚ) : List ℚ :=
  if anyNonzero l then
    if listMax l > 0 then l.map fun v => (1 - v / listMax l) * 100 else l
  else l

/-- `ResultsCollector._normalize_and_score` (lines 303–345): normalize
`ingestion_rate` and `index_efficiency` (higher is better), invert
`query_latency` and `storage_size` (lower is better), leave `security_score`
untouched, and set each `total_score[i]` to the weighted sum with weights
0.25 / 0.25 / 0.20 / 0.20 / 0.10, rounded to 2 decimals. -/
def normalizeAndScore (c : Comparison) : Comparison :=
  let ing := normalizeHigher c.ingestion_rate
  let idx := normalizeHigher c.index_efficiency
  let lat := normalizeLower c.query_latency
  let sto := normalizeLower c.storage_size
  let tot := (List.range c.database.length).map fun i =>
    round2 (ing.getD i 0 * (25 / 100) + lat.getD i 0 * (25 / 100)
      + sto.getD i 0 * (20 / 100) + idx.getD i 0 * (20 / 100)
      + c.security_score.getD i 0 * (10 / 100))
  { c with
      ingestion_rate := ing
      query_latency := lat
      storage_size := sto
      index_efficiency := idx
      total_score := tot }

/-- The ingestion numbers available to `generate_comparison_table`
(lines 276–286): `none` models an absent per-database key in
`metrics["ingestion_performance"]`; a present key contributes its
`avg_insert_rate` / `points_per_second` / `insert_rate` value (0 when that
inner key is missing). -/
structure IngestionMetrics where
  postgresql : Option ℚ
  influxdb : Option ℚ
  mongodb : Option ℚ

/-- `ResultsCollector.generate_comparison_table` (lines 258–301): every
column starts at `[0, 0, 0]`, only `ingestion_rate` is filled from the
collected metrics, then `_normalize_and_score` runs. -/
def generateComparisonTable (m : IngestionMetrics) : Comparison :=
  let base : Comparison :=
    { database := ["PostgreSQL", "InfluxDB", "MongoDB"],
      ingestion_rate := [0, 0, 0], query_latency := [0, 0, 0],
      storage_size := [0, 0, 0], index_efficiency := [0, 0, 0],
      security_score := [0, 0, 0], total_score := [0, 0, 0] }
  normalizeAndScore
    { base with ingestion_rate :=
        [m.postgresql.getD 0, m.influxdb.getD 0, m.mongodb.getD 0] }

/-- The winner line of `generate_summary_report` (line 378): the maximal
`total_score` is printed over a fixed `/100` denominator. -/
def summaryWinnerScoreLine (c : Comparison) : String :=
  "   Total Score: " ++ toString (listMax c.total_score) ++ "/100"

/-- Concrete input refuting the unqualified `[0, 100]` bound of C4:
all measured metrics are zero and the (never normalized) security score of
the first database is 2000. -/
def c4Input : Comparison :=
  { database := ["PostgreSQL", "InfluxDB", "MongoDB"],
    ingestion_rate := [0, 0, 0], query_latency := [0, 0, 0],
    storage_size := [0, 0, 0], index_efficiency := [0, 0, 0],
    security_score := [2000, 0, 0], total_score := [0, 0, 0] }

/-- A concrete comparison with in-range inputs, used to witness C4. -/
def c4WitnessInput : Comparison :=
  { database := ["PostgreSQL", "InfluxDB", "MongoDB"],
    ingestion_rate := [100, 50, 0], query_latency := [2, 1, 4],
    storage_size := [10, 20, 5], index_efficiency := [3, 6, 0],
    security_score := [80, 90, 100], total_score := [0, 0, 0] }

/- ### `12_query_performance.py` — per-query statistics (claim C6) -/

/-- The statistics fields of a `QueryResult` (lines 21–35) that
`run_performance_test` fills in. -/
structure QueryResultStats where
  execution_times : List ℚ
  result_counts : List Nat
  avg_time : ℚ
  min_time : ℚ
  max_time : ℚ
  std_dev : ℚ
  throughput : ℚ
  success_rate : ℚ

/-- The `execution_times` list built in the iteration loop (lines 235–250):
one entry per iteration whose `execute_query` call returned without error
(`none` models an iteration that ended in an error). -/
def successTimes (outcomes : List (Option (ℚ × Nat))) : List ℚ :=
  outcomes.filterMap fun o => o.map Prod.fst

/-- The `result_counts` list of the same loop. -/
def successCounts (outcomes : List (Option (ℚ × Nat))) : List Nat :=
  outcomes.filterMap fun o => o.map Prod.snd

/-- Python `statistics.stdev`'s square argument: the sample variance
`Σ (x - mean)² / (n - 1)`. -/
def sampleVariance (l : List ℚ) : ℚ :=
  ((l.map fun x => (x - listMean l) ^ 2).sum) / ((l.length : ℚ) - 1)

/-- The statistics block of `run_performance_test` (lines 252–281) for one
query: executed only when `execution_times` is nonempty.  `sqrtFn` abstracts
the square root inside `statistics.stdev`. -/
def runQueryStats (sqrtFn : ℚ → ℚ) (outcomes : List (Option (ℚ × Nat))) :
    Option QueryResultStats :=
  let times := successTimes outcomes
  let counts := successCounts outcomes
  if times.isEmpty then none
  else
    let avg := listMean times
    some
      { execution_times := times
        result_counts := counts
        avg_time := avg
        min_time := listMin times
        max_time := listMax times
        std_dev := if times.length > 1 then sqrtFn (sampleVariance times) else 0
        throughput :=
          if avg > 0 then listMean (counts.map fun n => (n : ℚ)) / avg else 0
        success_rate := (times.length : ℚ) / (outcomes.length : ℚ) }

/-- One query's processing in `run_performance_test` (lines 217–294): the
warmup iterations (lines 227–231) call `execute_query` and discard the
result, so only the measured `outcomes` reach the statistics. -/
def runQueryMeasurement (sqrtFn : ℚ → ℚ)
    (warmupOutcomes outcomes : List (Option (ℚ × Nat))) :
    Option QueryResultStats :=
  runQueryStats sqrtFn outcomes

/- ### `13_security_tokens.py` — token CRUD wrappers (claim C8) -/

/-- The `TokenInfo` dataclass (lines 23–37); timestamps are kept as opaque
strings. -/
structure TokenInfo where
  id : String
  description : String
  permissions : List String
  created_at : String
  updated_at : String
  status : String
  user_name : String
  user_id : String
  org_name : String
  org_id : String
  deriving DecidableEq

/-- `SecurityTokenManager.list_tokens` (lines 47–104).  `findAuths` models
`find_authorizations` together with the pure per-authorization conversion
loop: on any exception the `except` clause prints and the already-empty
`tokens` list is returned. -/
def list_tokens (findAuths : Except String (List TokenInfo)) : List TokenInfo :=
  match findAuths with
  | .ok toks => toks
  | .error _ => []

/-- `SecurityTokenManager.get_token_info` (lines 156–206). `findById` models
`find_authorization_by_id` plus the pure conversion; any exception yields
`None`. -/
def get_token_info (findById : Except String TokenInfo) : Option TokenInfo :=
  match findById with
  | .ok t => some t
  | .error _ => none

/-- `SecurityTokenManager.create_token` (lines 106–154).  Inside the `try`,
`self.get_org_id()` runs first (its exception propagates into this handler),
then `create_authorization` (modelled by `createAuth`, returning the new
authorization id), then `self.get_token_info(created_auth.id)`; any
exception yields `None`. -/
def create_token (orgId : Except String String)
    (createAuth : Except String String)
    (findById : String → Except String TokenInfo) : Option TokenInfo :=
  match orgId with
  | .error _ => none
  | .ok _ =>
    match createAuth with
    | .error _ => none
    | .ok authId => get_token_info (findById authId)

/-- `SecurityTokenManager.update_token` (lines 208–238): the update call,
then `get_token_info`; any exception yields `None`. -/
def update_token (updateCall : Except String Unit)
    (findById : Except String TokenInfo) : Option TokenInfo :=
  match updateCall with
  | .error _ => none
  | .ok _ => get_token_info findById

/-- `SecurityTokenManager.delete_token` (lines 240–252): `True` on success,
`False` when `delete_authorization` raises. -/
def delete_token (deleteCall : Except String Unit) : Bool :=
  match deleteCall with
  | .ok _ => true
  | .error _ => false

/-- `SecurityTokenManager.get_org_id` (lines 254–268): returns the first
organization id; an empty result raises `ValueError`, and the `except`
clause prints and re-raises, so every error propagates. -/
def get_org_id (org : String) (findOrgs : Except String (List String)) :
    Except String String :=
  match findOrgs with
  | .error e => .error e
  | .ok [] => .error ("Organization " ++ org ++ " not found")
  | .ok (o :: _) => .ok o

/-- `SecurityTokenManager.get_bucket_id` (lines 270–284): like `get_org_id`,
prints and re-raises every error. -/
def get_bucket_id (bucketName : String)
    (findBucket : Except String (Option String)) : Except String String :=
  match findBucket with
  | .error e => .error e
  | .ok none => .error ("Bucket " ++ bucketName ++ " not found")
  | .ok (some b) => .ok b

/-- `SecurityTokenManager.export_tokens` (lines 614–645): `list_tokens`
cannot raise, so only building and writing the JSON file (modelled by
`writeFile`) can; any exception yields `False`. -/
def export_tokens (writeFile : Except String Unit) : Bool :=
  match writeFile with
  | .ok _ => true
  | .error _ => false

/- ### `12_query_performance.py` — fixed query set (claim C9) -/

/-- The state set up by `QueryPerformanceTester.__init__` (lines 41–46). -/
structure QueryPerformanceTester where
  url : String
  token : String
  org : String
  bucket : String

/-- One element of the list returned by `define_test_queries`. -/
structure QueryDefn where
  name : String
  type : String
  description : String
  query : String
  deriving DecidableEq

/-- `QueryPerformanceTester.define_test_queries` (lines 48–169): the fixed
list of eight test queries; the Flux text interpolates only `self.bucket`. -/
def define_test_queries (t : QueryPerformanceTester) : List QueryDefn :=
  [{ name := "simple_recent_data", type := "simple_select"
     description := "Select recent data with limit"
     query := "from(bucket: \"" ++ t.bucket ++ "\")\n"
       ++ "  |> range(start: -1h)\n"
       ++ "  |> filter(fn: (r) => r._measurement == \"patient_vitals\")\n"
       ++ "  |> filter(fn: (r) => r._field == \"vital_value\")\n"
       ++ "  |> limit(n: 1000)" },
   { name := "time_range_aggregation", type := "aggregation"
     description := "Hourly aggregation over 24 hours"
     query := "from(bucket: \"" ++ t.bucket ++ "\")\n"
       ++ "  |> range(start: -24h)\n"
       ++ "  |> filter(fn: (r) => r._measurement == \"patient_vitals\")\n"
       ++ "  |> filter(fn: (r) => r._field == \"vital_value\")\n"
       ++ "  |> aggregateWindow(every: 1h, fn: mean, createEmpty: false)" },
   { name := "group_by_patient", type := "group_by"
     description := "Group by patient and calculate statistics"
     query := "from(bucket: \"" ++ t.bucket ++ "\")\n"
       ++ "  |> range(start: -24h)\n"
       ++ "  |> filter(fn: (r) => r._measurement == \"patient_vitals\")\n"
       ++ "  |> filter(fn: (r) => r._field == \"vital_value\")\n"
       ++ "  |> group(columns: [\"patient_id\", \"vital_type\"])\n"
       ++ "  |> mean()\n"
       ++ "  |> sort(columns: [\"_value\"], desc: true)" },
   { name := "complex_aggregation", type := "complex"
     description := "Multiple aggregations with filtering"
     query := "from(bucket: \"" ++ t.bucket ++ "\")\n"
       ++ "  |> range(start: -7d)\n"
       ++ "  |> filter(fn: (r) => r._measurement == \"patient_vitals\")\n"
       ++ "  |> filter(fn: (r) => r._field == \"vital_value\")\n"
       ++ "  |> filter(fn: (r) => r.vital_type == \"heart_rate_bpm\")\n"
       ++ "  |> group(columns: [\"patient_department\"])\n"
       ++ "  |> aggregateWindow(\n"
       ++ "      every: 1h,\n"
       ++ "      fn: (column, tables=<-) => tables\n"
       ++ "        |> mean(column: column)\n"
       ++ "        |> map(fn: (r) => (\x7br with _value: round(x: r._value, precision: 1)\x7d))\n"
       ++ "    )\n"
       ++ "  |> mean()" },
   { name := "alert_detection", type := "filtering"
     description := "Filter alerts with conditions"
     query := "from(bucket: \"" ++ t.bucket ++ "\")\n"
       ++ "  |> range(start: -1h)\n"
       ++ "  |> filter(fn: (r) => r._measurement == \"patient_vitals\")\n"
       ++ "  |> filter(fn: (r) => r._field == \"is_alert\")\n"
       ++ "  |> filter(fn: (r) => r._value == true)\n"
       ++ "  |> count()" },
   { name := "join_simulation", type := "complex"
     description := "Simulate join-like behavior"
     query := "alerts = from(bucket: \"" ++ t.bucket ++ "\")\n"
       ++ "  |> range(start: -1h)\n"
       ++ "  |> filter(fn: (r) => r._measurement == \"patient_vitals\")\n"
       ++ "  |> filter(fn: (r) => r._field == \"is_alert\")\n"
       ++ "  |> filter(fn: (r) => r._value == true)\n"
       ++ "\n"
       ++ "vitals = from(bucket: \"" ++ t.bucket ++ "\")\n"
       ++ "  |> range(start: -1h)\n"
       ++ "  |> filter(fn: (r) => r._measurement == \"patient_vitals\")\n"
       ++ "  |> filter(fn: (r) => r._field == \"vital_value\")\n"
       ++ "\n"
       ++ "join(tables: \x7balerts: alerts, vitals: vitals\x7d, on: [\"patient_id\", \"_time\"])\n"
       ++ "  |> yield(name: \"joined_data\")" },
   { name := "large_time_range", type := "large_scale"
     description := "Query large time range (30 days)"
     query := "from(bucket: \"" ++ t.bucket ++ "\")\n"
       ++ "  |> range(start: -30d)\n"
       ++ "  |> filter(fn: (r) => r._measurement == \"patient_vitals\")\n"
       ++ "  |> filter(fn: (r) => r._field == \"vital_value\")\n"
       ++ "  |> aggregateWindow(every: 6h, fn: mean, createEmpty: false)\n"
       ++ "  |> limit(n: 1000)" },
   { name := "high_cardinality", type := "high_cardinality"
     description := "Query with high cardinality groups"
     query := "from(bucket: \"" ++ t.bucket ++ "\")\n"
       ++ "  |> range(start: -1h)\n"
       ++ "  |> filter(fn: (r) => r._measurement == \"patient_vitals\")\n"
       ++ "  |> filter(fn: (r) => r._field == \"vital_value\")\n"
       ++ "  |> group(columns: [\"patient_id\", \"vital_type\", \"device_id\"])\n"
       ++ "  |> count()" }]

/-- `run_comprehensive_test` (lines 675–699) always tests exactly
`self.define_test_queries()`. -/
def run_comprehensive_test_queries (t : QueryPerformanceTester) : List QueryDefn :=
  define_test_queries t

/- ### `01_generate_health_iot_dataset.py` — generator and validator (claim C10) -/

/-- Python `str(n).zfill(w)`. -/
def zfill (w : Nat) (n : Nat) : String :=
  String.mk (List.replicate (w - (toString n).length) (Char.ofNat 48)) ++ toString n

/-- The `patients` list (line 33): `PATIENT_00001` … `PATIENT_00100`. -/
def patients : List String := (List.range' 1 100).map fun i => "PATIENT_" ++ zfill 5 i

/-- The `devices` list (line 34): `DEVICE_001` … `DEVICE_020`. -/
def devices : List String := (List.range' 1 20).map fun i => "DEVICE_" ++ zfill 3 i

/-- The `departments` list (line 35). -/
def departments : List String := ["ICU", "WARD", "OUTPATIENT", "EMERGENCY", "CARDIOLOGY"]

/-- The `vital_types` list (lines 36–44). -/
def vital_types : List String :=
  ["heart_rate_bpm", "blood_pressure_sys_mmhg", "blood_pressure_dia_mmhg",
   "spo2_percent", "temperature_c", "respiratory_rate_bpm", "blood_glucose_mgdl"]

/-- The `vital_ranges` dict (lines 47–55): `(min, max, typical)` per vital
type (the fallback is unreachable: lookups use members of `vital_types`). -/
def vital_ranges (v : String) : ℚ × ℚ × ℚ :=
  if v = "heart_rate_bpm" then (40, 180, 72)
  else if v = "blood_pressure_sys_mmhg" then (80, 200, 120)
  else if v = "blood_pressure_dia_mmhg" then (50, 120, 80)
  else if v = "spo2_percent" then (70, 100, 98)
  else if v = "temperature_c" then (35, 41, 36.8)
  else if v = "respiratory_rate_bpm" then (8, 40, 16)
  else if v = "blood_glucose_mgdl" then (70, 400, 100)
  else (0, 0, 0)

/-- The random draws consumed by one loop iteration of
`generate_health_iot_data`: the four `random.choice` picks (as indices), the
`random.uniform` offset entering the base value, and the `random.random()`
sample of the default alert branch. -/
structure Draw where
  patientIdx : Nat
  deviceIdx : Nat
  departmentIdx : Nat
  vitalIdx : Nat
  u : ℚ
  alertRand : ℚ

/-- The `base_value` computation (lines 75–86): heart rate follows the hour
of day (`timestamps[i].hour = (2 * i / 3600) % 24` from the 2-second grid
starting at midnight); other vitals perturb the typical value.  `d.u`
stands for the branch's `random.uniform` draw. -/
def base_value (i : Nat) (d : Draw) (vital : String) : ℚ :=
  let typical := (vital_ranges vital).2.2
  let hour := (2 * i / 3600) % 24
  if vital = "heart_rate_bpm" then
    if 2 ≤ hour ∧ hour ≤ 6 then typical - 10 + d.u
    else if 8 ≤ hour ∧ hour ≤ 18 then typical + 5 + d.u
    else typical + d.u
  else typical + d.u

/-- The `alert_flag` computation (lines 91–99). -/
def alert_flag_of (d : Draw) (vital : String) (value : ℚ) : Nat :=
  if vital = "heart_rate_bpm" then if value > 120 ∨ value < 50 then 1 else 0
  else if vital = "spo2_percent" then if value < 92 then 1 else 0
  else if vital = "blood_pressure_sys_mmhg" then
    if value > 160 ∨ value < 90 then 1 else 0
  else if d.alertRand < 5 / 100 then 1 else 0

/-- One row of the generated DataFrame (lines 101–111); `timestamp` is the
offset in seconds from `base_time = 2025-01-01 00:00:00`, i.e. `2 * i`. -/
structure HealthRecord where
  timestamp : Nat
  patient_id : String
  device_id : String
  vital_type : String
  value : ℚ
  alert_flag : Nat
  department : String
  data_sensitivity : String
  ingestion_batch : String
  deriving DecidableEq

/-- The body of the generation loop (lines 66–113) for index `i`: pick
patient/device/department/vital type, compute the base value, clamp it into
`(min, max)` (line 89: `max(min_val, min(max_val, base_value))`), round to
2 decimals, and set the alert flag. -/
def generateRecord (i : Nat) (d : Draw) : HealthRecord :=
  let vital := vital_types.getD (d.vitalIdx % vital_types.length) ""
  let minVal := (vital_ranges vital).1
  let maxVal := (vital_ranges vital).2.1
  let value := max minVal (min maxVal (base_value i d vital))
  { timestamp := 2 * i
    patient_id := patients.getD (d.patientIdx % patients.length) ""
    device_id := devices.getD (d.deviceIdx % devices.length) ""
    vital_type := vital
    value := round2 value
    alert_flag := alert_flag_of d vital value
    department := departments.getD (d.departmentIdx % departments.length) ""
    data_sensitivity := "PHI"
    ingestion_batch := "BATCH_" ++ zfill 3 (i / 1000 + 1) }

/-- `generate_health_iot_data` (lines 57–113): the list of generated rows
for `num_records = n`, with the randomness supplied by `draws`. -/
def generate_health_iot_data (n : Nat) (draws : Nat → Draw) : List HealthRecord :=
  (List.range n).map fun i => generateRecord i (draws i)

/-- Check 2 of `validate_dataset`:
`df["timestamp"].is_monotonic_increasing` (non-decreasing). -/
def isMonotonicTimestamps : List Nat → Bool
  | [] => true
  | [_] => true
  | a :: b :: rest => decide (a ≤ b) && isMonotonicTimestamps (b :: rest)

/-- Check 5 of `validate_dataset`: the regex `^PATIENT_\d{5}$`. -/
def matchesPatientPattern (s : String) : Bool :=
  decide (s.data.take 8 = "PATIENT_".data)
    && decide ((s.data.drop 8).length = 5)
    && (s.data.drop 8).all Char.isDigit

/-- `validate_dataset` (lines 218–264).  Check 1 (`isnull` over the critical
columns) is structurally satisfied in this typed embedding, so it is the
constant `true`; check 3 fails exactly when some non-`temperature_c` group
has a negative minimum, i.e. when some such record value is negative. -/
def validate_dataset (df : List HealthRecord) : Bool :=
  true
    && isMonotonicTimestamps (df.map fun r => r.timestamp)
    && (df.all fun r => decide (0 ≤ r.value) || decide (r.vital_type = "temperature_c"))
    && (df.all fun r => decide (r.alert_flag = 0) || decide (r.alert_flag = 1))
    && (df.all fun r => matchesPatientPattern r.patient_id)

theorem string_append_data (a b : String) : (a ++ b).data = a.data ++ b.data := rfl

theorem append_head_of_cons {c : Char} {l : List Char} {a : String} (s : String)
    (h : a.data = c :: l) : (a ++ s).data.head? = some c := by
  rw [string_append_data, h]; rfl

theorem excellent_head (fmt : ℚ → String) (imp : ℚ) :
    (excellentMsg fmt imp).data.head? = some 'E' := by
  show (("Excellent optimization (" ++ fmt imp) ++
    "x improvement). Keep current data organization.").data.head? = some 'E'
  rw [string_append_data]
  rw [List.head?_append_of_ne_nil]
  · exact append_head_of_cons (fmt imp) rfl
  · rw [string_append_data]; simp

theorem good_head (fmt : ℚ → String) (imp : ℚ) :
    (goodMsg fmt imp).data.head? = some 'G' := by
  show (("Good optimization (" ++ fmt imp) ++
    "x improvement). Consider adding more specific filters.").data.head? = some 'G'
  rw [string_append_data]
  rw [List.head?_append_of_ne_nil]
  · exact append_head_of_cons (fmt imp) rfl
  · rw [string_append_data]; simp

theorem minor_head (fmt : ℚ → String) (imp : ℚ) :
    (minorMsg fmt imp).data.head? = some 'M' := by
  show (("Minor optimization (" ++ fmt imp) ++
    "x improvement). Review query patterns.").data.head? = some 'M'
  rw [string_append_data]
  rw [List.head?_append_of_ne_nil]
  · exact append_head_of_cons (fmt imp) rfl
  · rw [string_append_data]; simp

theorem noSignificant_head : noSignificantMsg.data.head? = some 'N' := rfl

/-- C7: `test_index_effectiveness` sets `performance_improvement` to
`time_without / time_with` when both are strictly positive and to `1.0`
otherwise, and `_generate_index_recommendation` returns the
"Excellent optimization" message iff improvement > 5.0, the
"Good optimization" message iff 2.0 < improvement ≤ 5.0, the
"Minor optimization" message iff 1.0 < improvement ≤ 2.0, and the
"No significant improvement" message otherwise; the fallback value 1.0
always yields the "No significant improvement" message. -/
theorem c7_improvement_thresholds (fmt : ℚ → String) (qt : String)
    (sw swo : List (String × Nat)) (tw two imp : ℚ) :
    (0 < tw → 0 < two → computeImprovement tw two = two / tw)
    ∧ (¬ (0 < tw ∧ 0 < two) → computeImprovement tw two = 1)
    ∧ (generateIndexRecommendation fmt qt imp sw swo = excellentMsg fmt imp ↔ 5 < imp)
    ∧ (generateIndexRecommendation fmt qt imp sw swo = goodMsg fmt imp ↔ 2 < imp ∧ imp ≤ 5)
    ∧ (generateIndexRecommendation fmt qt imp sw swo = minorMsg fmt imp ↔ 1 < imp ∧ imp ≤ 2)
    ∧ (generateIndexRecommendation fmt qt imp sw swo = noSignificantMsg ↔ imp ≤ 1)
    ∧ (¬ (0 < tw ∧ 0 < two) →
        generateIndexRecommendation fmt qt (computeImprovement tw two) sw swo
          = noSignificantMsg) := by
  have hEG : ∀ i j : ℚ, excellentMsg fmt i ≠ goodMsg fmt j := by
    intro i j h
    have := (excellent_head fmt i).symm.trans (h ▸ good_head fmt j)
    simp at this
  have hEM : ∀ i j : ℚ, excellentMsg fmt i ≠ minorMsg fmt j := by
    intro i j h
    have := (excellent_head fmt i).symm.trans (h ▸ minor_head fmt j)
    simp at this
  have hEN : ∀ i : ℚ, excellentMsg fmt i ≠ noSignificantMsg := by
    intro i h
    have := (excellent_head fmt i).symm.trans (h ▸ noSignificant_head)
    simp at this
  have hGM : ∀ i j : ℚ, goodMsg fmt i ≠ minorMsg fmt j := by
    intro i j h
    have := (good_head fmt i).symm.trans (h ▸ minor_head fmt j)
    simp at this
  have hGN : ∀ i : ℚ, goodMsg fmt i ≠ noSignificantMsg := by
    intro i h
    have := (good_head fmt i).symm.trans (h ▸ noSignificant_head)
    simp at this
  have hMN : ∀ i : ℚ, minorMsg fmt i ≠ noSignificantMsg := by
    intro i h
    have := (minor_head fmt i).symm.trans (h ▸ noSignificant_head)
    simp at this
  refine ⟨?_, ?_, ?_, ?_, ?_, ?_, ?_⟩
  · intro h1 h2; simp [computeImprovement, h1, h2]
  · intro h; simp [computeImprovement, h]
  · unfold generateIndexRecommendation
    split
    · next h => simpa using h
    · next h =>
      split
      · next => exact ⟨fun hc => absurd hc.symm (hEG _ _), fun hc => absurd hc (by simpa using h)⟩
      · next =>
        split
        · next => exact ⟨fun hc => absurd hc.symm (hEM _ _), fun hc => absurd hc (by simpa using h)⟩
        · next => exact ⟨fun hc => absurd hc.symm (hEN _), fun hc => absurd hc (by simpa using h)⟩
  · unfold generateIndexRecommendation
    split
    · next h => exact ⟨fun hc => absurd hc (hEG _ _), fun hc => absurd h (not_lt.mpr hc.2)⟩
    · next h =>
      split
      · next h2 => exact ⟨fun _ => ⟨by simpa using h2, by simpa using h⟩, fun _ => rfl⟩
      · next h2 =>
        split
        · next => exact ⟨fun hc => absurd hc.symm (hGM _ _), fun hc => absurd hc.1 (by simpa using h2)⟩
        · next => exact ⟨fun hc => absurd hc.symm (hGN _), fun hc => absurd hc.1 (by simpa using h2)⟩
  · unfold generateIndexRecommendation
    split
    · next h => exact ⟨fun hc => absurd hc (hEM _ _), fun hc => absurd h (not_lt.mpr (hc.2.trans (by norm_num)))⟩
    · next h =>
      split
      · next h2 => exact ⟨fun hc => absurd hc (hGM _ _), fun hc => absurd h2 (not_lt.mpr hc.2)⟩
      · next h2 =>
        split
        · next h3 => exact ⟨fun _ => ⟨by simpa using h3, by simpa using h2⟩, fun _ => rfl⟩
        · next h3 => exact ⟨fun hc => absurd hc.symm (hMN _), fun hc => absurd hc.1 (by simpa using h3)⟩
  · unfold generateIndexRecommendation
    split
    · next h => exact ⟨fun hc => absurd hc (hEN _), fun hc => absurd h (not_lt.mpr (hc.trans (by norm_num)))⟩
    · next h =>
      split
      · next h2 => exact ⟨fun hc => absurd hc (hGN _), fun hc => absurd h2 (not_lt.mpr (hc.trans (by norm_num)))⟩
      · next h2 =>
        split
        · next h3 => exact ⟨fun hc => absurd hc (hMN _), fun hc => absurd h3 (not_lt.mpr hc)⟩
        · next h3 => exact ⟨fun _ => by simpa using h3, fun _ => rfl⟩
  · intro h
    have : computeImprovement tw two = 1 := by simp [computeImprovement, h]
    rw [this]
    simp [generateIndexRecommendation]

/-- Witness for C7 at concrete inputs. -/
theorem c7_improvement_thresholds_witness :
    computeImprovement 2 12 = 6 ∧
    generateIndexRecommendation (fun _ => "6.0") "time_filter" 6 [] [] =
      excellentMsg (fun _ => "6.0") 6 ∧
    generateIndexRecommendation (fun _ => "1.0") "time_filter"
      (computeImprovement 0 7) [] [] = noSignificantMsg := by
  refine ⟨?_, ?_, ?_⟩
  · have h := (c7_improvement_thresholds (fun _ => "6.0") "time_filter" [] [] 2 12 6).1
    have := h (by norm_num) (by norm_num)
    rw [this]; norm_num
  · exact (c7_improvement_thresholds (fun _ => "6.0") "time_filter" [] [] 2 12 6).2.2.1.mpr
      (by norm_num)
  · exact (c7_improvement_thresholds (fun _ => "1.0") "time_filter" [] [] 0 7 1).2.2.2.2.2.2
      (by norm_num)

theorem runBatchGo_attempts_le (succeeds : Nat → Bool) (bl mr : Nat) :
    ∀ (rem k : Nat), (runBatchGo succeeds bl mr k rem).attempts ≤ rem := by
  intro rem
  induction rem with
  | zero => intro k; simp [runBatchGo]
  | succ n ih =>
    intro k
    rw [runBatchGo]
    by_cases hs : succeeds k
    · simp [hs]
    · simp only [hs, Bool.false_eq_true, if_false]
      by_cases hk2 : k < mr - 1
      · simp only [hk2, if_pos]
        have := ih (k + 1)
        omega
      · simp [hk2]

theorem runBatchGo_success (succeeds : Nat → Bool) (bl mr : Nat) :
    ∀ (rem k j : Nat), rem = mr - k → k ≤ j → j < mr →
      (∀ i, k ≤ i → i < j → succeeds i = false) → succeeds j = true →
      runBatchGo succeeds bl mr k rem =
        ⟨j + 1 - k, bl, 0, (List.range' k (j - k)).map fun a => 2 ^ a⟩ := by
  intro rem
  induction rem with
  | zero =>
    intro k j hrem hkj hjm hfail hsucc
    omega
  | succ n ih =>
    intro k j hrem hkj hjm hfail hsucc
    by_cases hkj' : k = j
    · subst hkj'
      rw [runBatchGo]
      simp [hsucc]
    · have hklt : k < j := lt_of_le_of_ne hkj hkj'
      rw [runBatchGo]
      have hknotsucc : succeeds k = false := hfail k le_rfl hklt
      have hk2 : k < mr - 1 := by omega
      simp only [hknotsucc, Bool.false_eq_true, if_false, hk2, if_pos]
      have hrest := ih (k + 1) j (by omega) (by omega) hjm
        (fun i hi hij => hfail i (by omega) hij) hsucc
      rw [hrest]
      have hrange : List.range' k (j - k) = k :: List.range' (k + 1) (j - (k + 1)) := by
        have h' : j - k = (j - (k + 1)) + 1 := by omega
        rw [h', List.range'_succ]
      rw [hrange]
      simp only [List.map_cons, BatchOutcome.mk.injEq, List.cons.injEq, and_true, true_and]
      omega

theorem runBatchGo_allfail (succeeds : Nat → Bool) (bl mr : Nat) :
    ∀ (rem k : Nat), rem = mr - k → k < mr →
      (∀ i, k ≤ i → i < mr → succeeds i = false) →
      runBatchGo succeeds bl mr k rem =
        ⟨mr - k, 0, 1, (List.range' k (mr - 1 - k)).map fun a => 2 ^ a⟩ := by
  intro rem
  induction rem with
  | zero =>
    intro k hrem hk hfail
    omega
  | succ n ih =>
    intro k hrem hk hfail
    rw [runBatchGo]
    have hks : succeeds k = false := hfail k le_rfl hk
    by_cases hk2 : k < mr - 1
    · simp only [hks, Bool.false_eq_true, if_false, hk2, if_pos]
      have hrest := ih (k + 1) (by omega) (by omega)
        (fun i hi him => hfail i (by omega) him)
      rw [hrest]
      have hrange : List.range' k (mr - 1 - k) =
          k :: List.range' (k + 1) (mr - 1 - (k + 1)) := by
        have h' : mr - 1 - k = (mr - 1 - (k + 1)) + 1 := by omega
        rw [h', List.range'_succ]
      rw [hrange]
      simp only [List.map_cons, BatchOutcome.mk.injEq, List.cons.injEq, and_true, true_and]
      omega
    · simp only [hks, Bool.false_eq_true, if_false, hk2, if_false]
      have h1 : mr - k = 1 := by omega
      have h2 : mr - 1 - k = 0 := by omega
      rw [h1, h2]
      rfl

theorem foldl_add_pair {β : Type} (f g : β → Nat) :
    ∀ (l : List β) (a b : Nat),
      l.foldl (fun acc x => (acc.1 + f x, acc.2 + g x)) (a, b) =
        (a + (l.map f).sum, b + (l.map g).sum) := by
  intro l
  induction l with
  | nil => intro a b; simp
  | cons x xs ih =>
    intro a b
    simp only [List.foldl_cons, List.map_cons, List.sum_cons]
    rw [ih]
    ring_nf

/-- C1: for every CSV import and every batch, `import_data` attempts
`write_api.write` at most `max_retries` (default 3) times; after failed
attempt `k` (with `k < max_retries - 1`) it sleeps `2 ** k` seconds and
retries; a successful attempt adds `len(batch)` to `imported_points` and ends
the retry loop; a batch whose every attempt raises `InfluxDBError` increments
`failed_batches` by exactly 1; and processing continues batch by batch,
summing the per-batch effects. -/
theorem c1_import_retry_loop {α : Type} (succeeds : Nat → Bool)
    (batchLen maxRetries bs : Nat) (succ2 : Nat → Nat → Bool) (points : List α) :
    importDataMaxRetriesDefault = 3
    ∧ (runBatch succeeds batchLen maxRetries 0).attempts ≤ maxRetries
    ∧ (∀ j, j < maxRetries → (∀ i, i < j → succeeds i = false) →
        succeeds j = true →
        runBatch succeeds batchLen maxRetries 0 =
          ⟨j + 1, batchLen, 0, (List.range j).map fun a => 2 ^ a⟩)
    ∧ (0 < maxRetries → (∀ i, i < maxRetries → succeeds i = false) →
        runBatch succeeds batchLen maxRetries 0 =
          ⟨maxRetries, 0, 1, (List.range (maxRetries - 1)).map fun a => 2 ^ a⟩)
    ∧ importData maxRetries bs succ2 points =
        (((chunkList bs points).enum.map
            (fun ib => (runBatch (succ2 ib.1) ib.2.length maxRetries 0).imported)).sum,
         ((chunkList bs points).enum.map
            (fun ib => (runBatch (succ2 ib.1) ib.2.length maxRetries 0).failedInc)).sum) := by
  refine ⟨rfl, ?_, ?_, ?_, ?_⟩
  · have := runBatchGo_attempts_le succeeds batchLen maxRetries (maxRetries - 0) 0
    unfold runBatch
    omega
  · intro j hj hfail hsucc
    unfold runBatch
    have h := runBatchGo_success succeeds batchLen maxRetries (maxRetries - 0) 0 j
      (by omega) (by omega) hj (fun i _ hij => hfail i hij) hsucc
    rw [h]
    simp [List.range_eq_range']
  · intro hpos hfail
    unfold runBatch
    have h := runBatchGo_allfail succeeds batchLen maxRetries (maxRetries - 0) 0
      (by omega) hpos (fun i _ him => hfail i him)
    rw [h]
    simp [List.range_eq_range']
  · unfold importData
    rw [foldl_add_pair]
    simp

/-- Witness for C1: a batch succeeding at attempt 1 after one failure, a
batch failing all three attempts, and a five-point import in batches of two
whose writes all fail. -/
theorem c1_import_retry_loop_witness :
    runBatch (fun a => a == 1) 5 3 0 = ⟨2, 5, 0, [1]⟩
    ∧ runBatch (fun _ => false) 5 3 0 = ⟨3, 0, 1, [1, 2]⟩
    ∧ importData 3 2 (fun _ _ => false) [0, 1, 2, 3, 4] = (0, 3) := by
  refine ⟨?_, ?_, ?_⟩
  · have h := (c1_import_retry_loop (α := Nat) (fun a => a == 1) 5 3 2
      (fun _ _ => false) []).2.2.1 1 (by decide) (by decide) (by decide)
    rw [h]
    rfl
  · have h := (c1_import_retry_loop (α := Nat) (fun _ => false) 5 3 2
      (fun _ _ => false) []).2.2.2.1 (by decide) (by decide)
    rw [h]
    rfl
  · have h := (c1_import_retry_loop (α := Nat) (fun _ => false) 5 3 2
      (fun _ _ => false) [0, 1, 2, 3, 4]).2.2.2.2
    rw [h]
    rfl

theorem pyRound_eq_round (q : ℚ) : pyRound q = round q := by
  rw [round_eq, pyRound]
  exact (Rat.floor_def' _).trans Rat.floor_def.symm

theorem round2_nat_mul20 (n : ℕ) : round2 ((n : ℚ) * 20) = (n : ℚ) * 20 := by
  unfold round2
  rw [pyRound_eq_round]
  have h : ((n : ℚ) * 20) * 100 = ((2000 * n : ℕ) : ℚ) := by push_cast; ring
  rw [h, round_natCast]
  push_cast
  ring

theorem gcs_characterization (s : ℚ) :
    (getComplianceStatus s = "Fully Compliant" ↔ 90 ≤ s)
    ∧ (getComplianceStatus s = "Mostly Compliant" ↔ 70 ≤ s ∧ s < 90)
    ∧ (getComplianceStatus s = "Partially Compliant" ↔ 50 ≤ s ∧ s < 70)
    ∧ (getComplianceStatus s = "Non-Compliant" ↔ s < 50) := by
  unfold getComplianceStatus
  split_ifs with h1 h2 h3
  · exact ⟨iff_of_true rfl h1,
      iff_of_false (by decide) (fun hc => absurd h1 (not_le.mpr hc.2)),
      iff_of_false (by decide) (fun hc => absurd h1 (not_le.mpr (hc.2.trans (by norm_num)))),
      iff_of_false (by decide) (not_lt.mpr (le_trans (by norm_num) h1))⟩
  · exact ⟨iff_of_false (by decide) h1,
      iff_of_true rfl ⟨h2, not_le.mp h1⟩,
      iff_of_false (by decide) (fun hc => absurd h2 (not_le.mpr hc.2)),
      iff_of_false (by decide) (not_lt.mpr (le_trans (by norm_num) h2))⟩
  · exact ⟨iff_of_false (by decide) h1,
      iff_of_false (by decide) (fun hc => h2 hc.1),
      iff_of_true rfl ⟨h3, not_le.mp h2⟩,
      iff_of_false (by decide) (not_lt.mpr h3)⟩
  · exact ⟨iff_of_false (by decide) h1,
      iff_of_false (by decide) (fun hc => h2 hc.1),
      iff_of_false (by decide) (fun hc => h3 hc.1),
      iff_of_true rfl (not_le.mp h3)⟩

/-- C2: `_assess_compliance` marks a requirement "Compliant" iff its
snake_case name is a substring of some feature's lowercased description or
name; each framework's score is `(matched / total) * 100` rounded to two
decimals, and the status follows the fixed thresholds (≥ 90 Fully, ≥ 70
Mostly, ≥ 50 Partially, else Non-Compliant) applied to that score. -/
theorem c2_assess_compliance (features : List SecurityFeature) (database : String) :
    ∀ fr ∈ securityFrameworks,
      assessFramework features database fr ∈ assessCompliance features database
      ∧ (assessFramework features database fr).2.score =
          round2
            (((fr.2.requirements.filter fun r => featureSupport r features).length : ℚ)
              / (fr.2.requirements.length : ℚ) * 100)
      ∧ (assessFramework features database fr).2.status =
          getComplianceStatus (assessFramework features database fr).2.score
      ∧ (∀ req ∈ fr.2.requirements,
          complianceDetail database features req
              ∈ (assessFramework features database fr).2.details
          ∧ ((complianceDetail database features req).status = "Compliant" ↔
              ∃ f ∈ features,
                containsSub req (strToLower f.description) = true
                ∨ containsSub req (strToLower f.feature) = true))
      ∧ ((assessFramework features database fr).2.status = "Fully Compliant" ↔
          90 ≤ (assessFramework features database fr).2.score)
      ∧ ((assessFramework features database fr).2.status = "Mostly Compliant" ↔
          70 ≤ (assessFramework features database fr).2.score
            ∧ (assessFramework features database fr).2.score < 90)
      ∧ ((assessFramework features database fr).2.status = "Partially Compliant" ↔
          50 ≤ (assessFramework features database fr).2.score
            ∧ (assessFramework features database fr).2.score < 70)
      ∧ ((assessFramework features database fr).2.status = "Non-Compliant" ↔
          (assessFramework features database fr).2.score < 50) := by
  intro fr hfr
  have hlen : fr.2.requirements.length = 5 := by
    simp only [securityFrameworks, List.mem_cons, List.not_mem_nil, or_false] at hfr
    rcases hfr with rfl | rfl | rfl <;> rfl
  have hpos : ((fr.2.requirements.length : ℚ)) > 0 := by rw [hlen]; norm_num
  have hraw :
      (((fr.2.requirements.filter fun r => featureSupport r features).length : ℚ)
          / (fr.2.requirements.length : ℚ) * 100)
        = ((fr.2.requirements.filter fun r => featureSupport r features).length : ℚ) * 20 := by
    rw [hlen]; push_cast; ring
  have hfix :
      round2
          (((fr.2.requirements.filter fun r => featureSupport r features).length : ℚ)
            / (fr.2.requirements.length : ℚ) * 100)
        = (((fr.2.requirements.filter fun r => featureSupport r features).length : ℚ)
            / (fr.2.requirements.length : ℚ) * 100) := by
    rw [hraw]; exact round2_nat_mul20 _
  have hscoreR : (assessFramework features database fr).2.score =
      round2
        (((fr.2.requirements.filter fun r => featureSupport r features).length : ℚ)
          / (fr.2.requirements.length : ℚ) * 100) := by
    simp only [assessFramework, if_pos hpos]
  have hscore : (assessFramework features database fr).2.score =
      (((fr.2.requirements.filter fun r => featureSupport r features).length : ℚ)
        / (fr.2.requirements.length : ℚ) * 100) := by
    rw [hscoreR, hfix]
  have hstatus : (assessFramework features database fr).2.status =
      getComplianceStatus
        (((fr.2.requirements.filter fun r => featureSupport r features).length : ℚ)
          / (fr.2.requirements.length : ℚ) * 100) := by
    simp only [assessFramework, if_pos hpos]
  have hgcs := gcs_characterization
    (((fr.2.requirements.filter fun r => featureSupport r features).length : ℚ)
      / (fr.2.requirements.length : ℚ) * 100)
  refine ⟨List.mem_map_of_mem _ hfr, hscoreR, ?_, ?_, ?_, ?_, ?_, ?_⟩
  · rw [hstatus, hscore]
  · intro req hreq
    constructor
    · have : (assessFramework features database fr).2.details =
          fr.2.requirements.map (complianceDetail database features) := by
        simp [assessFramework]
      rw [this]
      exact List.mem_map_of_mem _ hreq
    · by_cases hs : featureSupport req features
      · have hstat : (complianceDetail database features req).status = "Compliant" := by
          simp [complianceDetail, hs]
        rw [hstat]
        refine iff_of_true rfl ?_
        simpa [featureSupport, List.any_eq_true, Bool.or_eq_true] using hs
      · have hstat : (complianceDetail database features req).status = "Non-Compliant" := by
          simp [complianceDetail, hs]
        rw [hstat]
        refine iff_of_false (by decide) ?_
        simpa [featureSupport, List.any_eq_true, Bool.or_eq_true] using hs
  · rw [hstatus, hscore]; exact hgcs.1
  · rw [hstatus, hscore]; exact hgcs.2.1
  · rw [hstatus, hscore]; exact hgcs.2.2.1
  · rw [hstatus, hscore]; exact hgcs.2.2.2

/-- Witness for C2 at the hard-coded InfluxDB feature list and the HIPAA
framework. -/
theorem c2_assess_compliance_witness :
    assessFramework influxFeatures "InfluxDB"
        ("hipaa", ⟨"HIPAA",
          ["access_controls", "audit_trails", "data_encryption",
           "authentication", "authorization"]⟩)
      ∈ assessCompliance influxFeatures "InfluxDB"
    ∧ ((complianceDetail "InfluxDB" influxFeatures "authentication").status
        = "Compliant" ↔
        ∃ f ∈ influxFeatures,
          containsSub "authentication" (strToLower f.description) = true
          ∨ containsSub "authentication" (strToLower f.feature) = true) := by
  have h := c2_assess_compliance influxFeatures "InfluxDB"
    ("hipaa", ⟨"HIPAA",
      ["access_controls", "audit_trails", "data_encryption",
       "authentication", "authorization"]⟩) (by decide)
  exact ⟨h.1, (h.2.2.2.1 "authentication" (by decide)).2⟩

/-- C3: on the hard-coded feature lists, PostgreSQL and MongoDB score 0
("Non-Compliant") for all three frameworks; InfluxDB scores exactly 20.0 for
HIPAA — only the `authentication` requirement matches — and 0 for GDPR and
ISO 27001. -/
theorem c3_hardcoded_feature_scores :
    ((assessCompliance pgFeatures "PostgreSQL").map fun r =>
        (r.1, r.2.score, r.2.status)) =
      [("hipaa", 0, "Non-Compliant"), ("gdpr", 0, "Non-Compliant"),
       ("iso_27001", 0, "Non-Compliant")]
    ∧ ((assessCompliance influxFeatures "InfluxDB").map fun r =>
        (r.1, r.2.score, r.2.status)) =
      [("hipaa", 20, "Non-Compliant"), ("gdpr", 0, "Non-Compliant"),
       ("iso_27001", 0, "Non-Compliant")]
    ∧ ((assessCompliance mongoFeatures "MongoDB").map fun r =>
        (r.1, r.2.score, r.2.status)) =
      [("hipaa", 0, "Non-Compliant"), ("gdpr", 0, "Non-Compliant"),
       ("iso_27001", 0, "Non-Compliant")]
    ∧ ((assessCompliance influxFeatures "InfluxDB").map fun r =>
        r.2.details.map fun d => (d.requirement, d.status)) =
      [[("access_controls", "Non-Compliant"), ("audit_trails", "Non-Compliant"),
        ("data_encryption", "Non-Compliant"), ("authentication", "Compliant"),
        ("authorization", "Non-Compliant")],
       [("data_protection", "Non-Compliant"), ("consent_management", "Non-Compliant"),
        ("right_to_erasure", "Non-Compliant"), ("data_portability", "Non-Compliant"),
        ("privacy_by_design", "Non-Compliant")],
       [("risk_assessment", "Non-Compliant"), ("security_policies", "Non-Compliant"),
        ("access_control", "Non-Compliant"), ("cryptography", "Non-Compliant"),
        ("physical_security", "Non-Compliant")]] := by
  refine ⟨?_, ?_, ?_, ?_⟩ <;> with_unfolding_all decide

theorem foldl_max_init_le : ∀ (l : List ℚ) (a : ℚ), a ≤ l.foldl max a := by
  intro l
  induction l with
  | nil => intro a; simp
  | cons b l ih =>
    intro a
    simp only [List.foldl_cons]
    exact le_trans (le_max_left a b) (ih (max a b))

theorem mem_le_foldl_max : ∀ (l : List ℚ) (a x : ℚ), x ∈ l → x ≤ l.foldl max a := by
  intro l
  induction l with
  | nil => intro a x hx; simp at hx
  | cons b l ih =>
    intro a x hx
    simp only [List.foldl_cons]
    rcases List.mem_cons.mp hx with rfl | hx
    · exact le_trans (le_max_right a x) (foldl_max_init_le l (max a x))
    · exact ih (max a b) x hx

theorem listMax_mem_le (l : List ℚ) (x : ℚ) (h : x ∈ l) : x ≤ listMax l := by
  cases l with
  | nil => simp at h
  | cons a l =>
    unfold listMax
    rcases List.mem_cons.mp h with rfl | h
    · exact foldl_max_init_le l x
    · exact mem_le_foldl_max l a x h

theorem foldl_max_le : ∀ (l : List ℚ) (a c : ℚ), a ≤ c → (∀ x ∈ l, x ≤ c) →
    l.foldl max a ≤ c := by
  intro l
  induction l with
  | nil => intro a c ha _; simpa using ha
  | cons b l ih =>
    intro a c ha hl
    simp only [List.foldl_cons]
    exact ih (max a b) c (max_le ha (hl b (List.mem_cons_self b l)))
      fun x hx => hl x (List.mem_cons_of_mem b hx)

theorem listMax_le (l : List ℚ) (c : ℚ) (h0 : 0 ≤ c) (h : ∀ x ∈ l, x ≤ c) :
    listMax l ≤ c := by
  cases l with
  | nil => simpa [listMax] using h0
  | cons a l =>
    unfold listMax
    exact foldl_max_le l a c (h a (List.mem_cons_self a l))
      fun x hx => h x (List.mem_cons_of_mem a hx)

theorem anyNonzero_eq_false (l : List ℚ) (h : anyNonzero l = false) :
    ∀ x ∈ l, x = 0 := by
  intro x hx
  have := List.any_eq_false.mp h x hx
  simpa using this

theorem normalizeHigher_le_100 (l : List ℚ) : ∀ y ∈ normalizeHigher l, y ≤ 100 := by
  intro y hy
  unfold normalizeHigher at hy
  split at hy
  · split at hy
    · next hmax =>
      obtain ⟨v, hv, rfl⟩ := List.mem_map.mp hy
      have hle : v ≤ listMax l := listMax_mem_le l v hv
      have : v / listMax l ≤ 1 := (div_le_one hmax).mpr hle
      nlinarith
    · next hmax =>
      have h1 : y ≤ listMax l := listMax_mem_le l y hy
      have h2 : listMax l ≤ 0 := not_lt.mp hmax
      linarith
  · next hany =>
    have := anyNonzero_eq_false l (Bool.eq_false_iff.mpr (by simpa using hany)) y hy
    simp [this]

theorem normalizeHigher_nonneg (l : List ℚ) (h : ∀ x ∈ l, 0 ≤ x) :
    ∀ y ∈ normalizeHigher l, 0 ≤ y := by
  intro y hy
  unfold normalizeHigher at hy
  split at hy
  · split at hy
    · next hmax =>
      obtain ⟨v, hv, rfl⟩ := List.mem_map.mp hy
      have := h v hv
      positivity
    · exact h y hy
  · exact h y hy

theorem normalizeLower_bounds (l : List ℚ) (h : ∀ x ∈ l, 0 ≤ x) :
    ∀ y ∈ normalizeLower l, 0 ≤ y ∧ y ≤ 100 := by
  intro y hy
  unfold normalizeLower at hy
  split at hy
  · split at hy
    · next hmax =>
      obtain ⟨v, hv, rfl⟩ := List.mem_map.mp hy
      have hle : v ≤ listMax l := listMax_mem_le l v hv
      have hv0 : 0 ≤ v := h v hv
      have h1 : v / listMax l ≤ 1 := (div_le_one hmax).mpr hle
      have h2 : 0 ≤ v / listMax l := div_nonneg hv0 (le_of_lt hmax)
      constructor <;> nlinarith
    · next hmax =>
      have h1 : y ≤ listMax l := listMax_mem_le l y hy
      have h2 : listMax l ≤ 0 := not_lt.mp hmax
      have h0 := h y hy
      constructor <;> linarith
  · next hany =>
    have := anyNonzero_eq_false l (Bool.eq_false_iff.mpr (by simpa using hany)) y hy
    simp [this]

theorem round2_mono {x y : ℚ} (h : x ≤ y) : round2 x ≤ round2 y := by
  unfold round2
  rw [pyRound_eq_round, pyRound_eq_round]
  have h1 : round (x * 100) ≤ round (y * 100) := by
    rw [round_eq, round_eq]
    exact Int.floor_le_floor (by linarith)
  have h2 : ((round (x * 100) : ℤ) : ℚ) ≤ ((round (y * 100) : ℤ) : ℚ) :=
    Int.cast_le.mpr h1
  linarith

theorem round2_natCast (n : ℕ) : round2 (n : ℚ) = n := by
  unfold round2
  rw [pyRound_eq_round]
  rw [show ((n : ℚ) * 100) = ((100 * n : ℕ) : ℚ) by push_cast; ring, round_natCast]
  rw [div_eq_iff (by norm_num : (100 : ℚ) ≠ 0)]
  push_cast
  ring

theorem getD_bound (l : List ℚ) (i : Nat) (hi : ℚ) (h1 : 0 ≤ hi)
    (h : ∀ x ∈ l, 0 ≤ x ∧ x ≤ hi) : 0 ≤ l.getD i 0 ∧ l.getD i 0 ≤ hi := by
  rw [List.getD_eq_getElem?_getD]
  rcases Nat.lt_or_ge i l.length with hlt | hge
  · rw [List.getElem?_eq_getElem hlt]
    exact h _ (List.getElem_mem hlt)
  · rw [List.getElem?_eq_none hge]
    simpa using h1

theorem normalizeHigher_length (l : List ℚ) :
    (normalizeHigher l).length = l.length := by
  unfold normalizeHigher
  split
  · split
    · simp
    · rfl
  · rfl

theorem zeros3_getD (i : Nat) : (([0, 0, 0] : List ℚ)).getD i 0 = 0 := by
  rcases i with _ | _ | _ | i <;> rfl

theorem range_map_getD_eq_map (f : ℚ → ℚ) :
    ∀ l : List ℚ,
      (List.range l.length).map (fun i => f (l.getD i 0)) = l.map f := by
  intro l
  induction l with
  | nil => rfl
  | cons a t ih =>
    simp only [List.length_cons, List.range_succ_eq_map, List.map_cons,
      List.map_map]
    congr 1

/-- C4 (amended): `_normalize_and_score` rescales higher-is-better metrics to
`v / max * 100`, rewrites lower-is-better metrics to `(1 - v / max) * 100`,
leaves `security_score` unnormalized, and sets `total_score` to the weighted
sum (weights 0.25/0.25/0.20/0.20/0.10, which sum to 1) rounded to 2 decimals;
for nonnegative inputs whose security scores also lie in `[0, 100]`, every
resulting `total_score` lies in `[0, 100]`. -/
theorem c4_normalize_and_score (c : Comparison)
    (hing : ∀ x ∈ c.ingestion_rate, 0 ≤ x)
    (hlat : ∀ x ∈ c.query_latency, 0 ≤ x)
    (hsto : ∀ x ∈ c.storage_size, 0 ≤ x)
    (hidx : ∀ x ∈ c.index_efficiency, 0 ≤ x)
    (hsec : ∀ x ∈ c.security_score, 0 ≤ x ∧ x ≤ 100) :
    ((25 : ℚ) / 100 + 25 / 100 + 20 / 100 + 20 / 100 + 10 / 100 = 1)
    ∧ (normalizeAndScore c).ingestion_rate = normalizeHigher c.ingestion_rate
    ∧ (normalizeAndScore c).index_efficiency = normalizeHigher c.index_efficiency
    ∧ (normalizeAndScore c).query_latency = normalizeLower c.query_latency
    ∧ (normalizeAndScore c).storage_size = normalizeLower c.storage_size
    ∧ (normalizeAndScore c).security_score = c.security_score
    ∧ (anyNonzero c.ingestion_rate = true → 0 < listMax c.ingestion_rate →
        normalizeHigher c.ingestion_rate =
          c.ingestion_rate.map fun v => v / listMax c.ingestion_rate * 100)
    ∧ (anyNonzero c.query_latency = true → 0 < listMax c.query_latency →
        normalizeLower c.query_latency =
          c.query_latency.map fun v => (1 - v / listMax c.query_latency) * 100)
    ∧ (normalizeAndScore c).total_score =
        (List.range c.database.length).map (fun i =>
          round2 ((normalizeHigher c.ingestion_rate).getD i 0 * (25 / 100)
            + (normalizeLower c.query_latency).getD i 0 * (25 / 100)
            + (normalizeLower c.storage_size).getD i 0 * (20 / 100)
            + (normalizeHigher c.index_efficiency).getD i 0 * (20 / 100)
            + c.security_score.getD i 0 * (10 / 100)))
    ∧ (∀ t ∈ (normalizeAndScore c).total_score, 0 ≤ t ∧ t ≤ 100) := by
  have r0 : round2 0 = 0 := by simpa using round2_natCast 0
  have r100 : round2 100 = 100 := by simpa using round2_natCast 100
  refine ⟨by norm_num, rfl, rfl, rfl, rfl, rfl, ?_, ?_, rfl, ?_⟩
  · intro h1 h2
    simp [normalizeHigher, h1, h2]
  · intro h1 h2
    simp [normalizeLower, h1, h2]
  · intro t ht
    have ht' : t ∈ (List.range c.database.length).map (fun i =>
        round2 ((normalizeHigher c.ingestion_rate).getD i 0 * (25 / 100)
          + (normalizeLower c.query_latency).getD i 0 * (25 / 100)
          + (normalizeLower c.storage_size).getD i 0 * (20 / 100)
          + (normalizeHigher c.index_efficiency).getD i 0 * (20 / 100)
          + c.security_score.getD i 0 * (10 / 100))) := ht
    obtain ⟨i, _, rfl⟩ := List.mem_map.mp ht'
    have hingB : ∀ y ∈ normalizeHigher c.ingestion_rate, 0 ≤ y ∧ y ≤ 100 :=
      fun y hy => ⟨normalizeHigher_nonneg _ hing y hy, normalizeHigher_le_100 _ y hy⟩
    have hidxB : ∀ y ∈ normalizeHigher c.index_efficiency, 0 ≤ y ∧ y ≤ 100 :=
      fun y hy => ⟨normalizeHigher_nonneg _ hidx y hy, normalizeHigher_le_100 _ y hy⟩
    have hlatB := normalizeLower_bounds c.query_latency hlat
    have hstoB := normalizeLower_bounds c.storage_size hsto
    have g1 := getD_bound _ i 100 (by norm_num) hingB
    have g2 := getD_bound _ i 100 (by norm_num) hlatB
    have g3 := getD_bound _ i 100 (by norm_num) hstoB
    have g4 := getD_bound _ i 100 (by norm_num) hidxB
    have g5 := getD_bound _ i 100 (by norm_num) hsec
    constructor
    · have h0 : (0 : ℚ) ≤ (normalizeHigher c.ingestion_rate).getD i 0 * (25 / 100)
          + (normalizeLower c.query_latency).getD i 0 * (25 / 100)
          + (normalizeLower c.storage_size).getD i 0 * (20 / 100)
          + (normalizeHigher c.index_efficiency).getD i 0 * (20 / 100)
          + c.security_score.getD i 0 * (10 / 100) := by
        have := g1.1; have := g2.1; have := g3.1; have := g4.1; have := g5.1
        linarith
      calc (0 : ℚ) = round2 0 := r0.symm
        _ ≤ _ := round2_mono h0
    · have h100 : (normalizeHigher c.ingestion_rate).getD i 0 * (25 / 100)
          + (normalizeLower c.query_latency).getD i 0 * (25 / 100)
          + (normalizeLower c.storage_size).getD i 0 * (20 / 100)
          + (normalizeHigher c.index_efficiency).getD i 0 * (20 / 100)
          + c.security_score.getD i 0 * (10 / 100) ≤ 100 := by
        have := g1.2; have := g2.2; have := g3.2; have := g4.2; have := g5.2
        linarith
      calc round2 _ ≤ round2 100 := round2_mono h100
        _ = 100 := r100

/-- Counterexample to C4 as stated: with all measured metrics zero and a
nonnegative security score of 2000 for the first database, the resulting
total score is 200, outside `[0, 100]` (the code never normalizes
`security_score`). -/
theorem c4_normalize_and_score_counterexample :
    allNonneg (c4Input.ingestion_rate ++ c4Input.query_latency
      ++ c4Input.storage_size ++ c4Input.index_efficiency
      ++ c4Input.security_score) = true
    ∧ (normalizeAndScore c4Input).total_score = [200, 0, 0]
    ∧ ¬ ((200 : ℚ) ≤ 100) := by
  refine ⟨by with_unfolding_all decide, by with_unfolding_all decide,
    by norm_num⟩

/-- Witness for C4 at a concrete in-range comparison. -/
theorem c4_normalize_and_score_witness :
    0 ≤ (normalizeAndScore c4WitnessInput).total_score.getD 0 0
    ∧ (normalizeAndScore c4WitnessInput).total_score.getD 0 0 ≤ 100 := by
  have h := c4_normalize_and_score c4WitnessInput
    (by with_unfolding_all decide) (by with_unfolding_all decide)
    (by with_unfolding_all decide) (by with_unfolding_all decide)
    (by with_unfolding_all decide)
  have hmem : (normalizeAndScore c4WitnessInput).total_score.getD 0 0
      ∈ (normalizeAndScore c4WitnessInput).total_score := by
    with_unfolding_all decide
  exact h.2.2.2.2.2.2.2.2.2 _ hmem

/-- C5: in `generate_comparison_table` only `ingestion_rate` is ever filled
from the collected metrics; `query_latency`, `storage_size`,
`index_efficiency` and `security_score` stay 0 for all three databases, so
every `total_score` equals 0.25 times the normalized ingestion rate (rounded)
and is at most 25 — yet the summary report prints the winner's total score
over a fixed `/100` denominator. -/
theorem c5_only_ingestion_scored (m : IngestionMetrics) :
    (generateComparisonTable m).query_latency = [0, 0, 0]
    ∧ (generateComparisonTable m).storage_size = [0, 0, 0]
    ∧ (generateComparisonTable m).index_efficiency = [0, 0, 0]
    ∧ (generateComparisonTable m).security_score = [0, 0, 0]
    ∧ (generateComparisonTable m).total_score =
        (generateComparisonTable m).ingestion_rate.map
          (fun v => round2 (v * (25 / 100)))
    ∧ (∀ t ∈ (generateComparisonTable m).total_score, t ≤ 25)
    ∧ listMax (generateComparisonTable m).total_score ≤ 25
    ∧ summaryWinnerScoreLine (generateComparisonTable m) =
        "   Total Score: "
          ++ toString (listMax (generateComparisonTable m).total_score)
          ++ "/100" := by
  have hzeroLow : normalizeLower [0, 0, 0] = [0, 0, 0] := by
    with_unfolding_all decide
  have hzeroHigh : normalizeHigher [0, 0, 0] = [0, 0, 0] := by
    with_unfolding_all decide
  have hing : (generateComparisonTable m).ingestion_rate =
      normalizeHigher [m.postgresql.getD 0, m.influxdb.getD 0, m.mongodb.getD 0] :=
    rfl
  have htot : (generateComparisonTable m).total_score =
      (normalizeHigher
          [m.postgresql.getD 0, m.influxdb.getD 0, m.mongodb.getD 0]).map
        fun v => round2 (v * (25 / 100)) := by
    show (List.range (3 : Nat)).map (fun i =>
        round2 ((normalizeHigher
            [m.postgresql.getD 0, m.influxdb.getD 0, m.mongodb.getD 0]).getD i 0
            * (25 / 100)
          + (normalizeLower [0, 0, 0]).getD i 0 * (25 / 100)
          + (normalizeLower [0, 0, 0]).getD i 0 * (20 / 100)
          + (normalizeHigher [0, 0, 0]).getD i 0 * (20 / 100)
          + (([0, 0, 0] : List ℚ)).getD i 0 * (10 / 100))) = _
    rw [hzeroLow, hzeroHigh]
    simp only [zeros3_getD, zero_mul, add_zero]
    rw [show (3 : Nat) = (normalizeHigher
        [m.postgresql.getD 0, m.influxdb.getD 0, m.mongodb.getD 0]).length by
      rw [normalizeHigher_length]; rfl]
    exact range_map_getD_eq_map (fun v => round2 (v * (25 / 100))) _
  have hb : ∀ t ∈ (generateComparisonTable m).total_score, t ≤ 25 := by
    intro t ht
    rw [htot] at ht
    obtain ⟨v, hv, rfl⟩ := List.mem_map.mp ht
    have hv100 : v ≤ 100 := normalizeHigher_le_100 _ v hv
    have h25 : v * (25 / 100) ≤ 25 := by linarith
    calc round2 (v * (25 / 100)) ≤ round2 25 := round2_mono h25
      _ = 25 := by simpa using round2_natCast 25
  refine ⟨rfl, rfl, rfl, rfl, ?_, hb, ?_, rfl⟩
  · rw [htot, hing]
  · exact listMax_le _ 25 (by norm_num) hb

/-- Witness for C5 at a concrete metrics record. -/
theorem c5_only_ingestion_scored_witness :
    (generateComparisonTable ⟨some 400, some 800, none⟩).total_score.getD 1 0 ≤ 25 := by
  have h := c5_only_ingestion_scored ⟨some 400, some 800, none⟩
  have hmem : (generateComparisonTable ⟨some 400, some 800, none⟩).total_score.getD 1 0
      ∈ (generateComparisonTable ⟨some 400, some 800, none⟩).total_score := by
    with_unfolding_all decide
  exact h.2.2.2.2.2.1 _ hmem

theorem foldl_min_le_init : ∀ (l : List ℚ) (a : ℚ), l.foldl min a ≤ a := by
  intro l
  induction l with
  | nil => intro a; simp
  | cons b l ih =>
    intro a
    simp only [List.foldl_cons]
    exact le_trans (ih (min a b)) (min_le_left a b)

theorem foldl_min_le_mem : ∀ (l : List ℚ) (a x : ℚ), x ∈ l → l.foldl min a ≤ x := by
  intro l
  induction l with
  | nil => intro a x hx; simp at hx
  | cons b l ih =>
    intro a x hx
    simp only [List.foldl_cons]
    rcases List.mem_cons.mp hx with rfl | hx
    · exact le_trans (foldl_min_le_init l (min a x)) (min_le_right a x)
    · exact ih (min a b) x hx

theorem listMin_le_mem (l : List ℚ) (x : ℚ) (h : x ∈ l) : listMin l ≤ x := by
  cases l with
  | nil => simp at h
  | cons a l =>
    unfold listMin
    rcases List.mem_cons.mp h with rfl | h
    · exact foldl_min_le_init l x
    · exact foldl_min_le_mem l a x h

theorem listMin_le_listMean (l : List ℚ) (h : l ≠ []) : listMin l ≤ listMean l := by
  have hn : 0 < l.length := List.length_pos.mpr h
  have hs : l.length • listMin l ≤ l.sum :=
    List.card_nsmul_le_sum l _ fun x hx => listMin_le_mem l x hx
  rw [nsmul_eq_mul] at hs
  unfold listMean
  rw [le_div_iff (by exact_mod_cast hn)]
  linarith

theorem listMean_le_listMax (l : List ℚ) (h : l ≠ []) : listMean l ≤ listMax l := by
  have hn : 0 < l.length := List.length_pos.mpr h
  have hs : l.sum ≤ l.length • listMax l :=
    List.sum_le_card_nsmul l _ fun x hx => listMax_mem_le l x hx
  rw [nsmul_eq_mul] at hs
  unfold listMean
  rw [div_le_iff (by exact_mod_cast hn)]
  linarith

/-- C6: for every query with at least one successful measured iteration,
`run_performance_test` records `avg_time` as the mean of the successful
execution times, `min_time`/`max_time` as their minimum/maximum (so
`min_time ≤ avg_time ≤ max_time`), `std_dev = 0` for exactly one success,
`success_rate = successes / iterations ∈ [0, 1]`, and
`throughput = mean(result_counts) / avg_time` when `avg_time > 0`; warmup
iterations never enter the statistics. -/
theorem c6_query_statistics (sqrtFn : ℚ → ℚ)
    (warm warm2 outcomes : List (Option (ℚ × Nat)))
    (h : successTimes outcomes ≠ []) :
    ∃ r, runQueryMeasurement sqrtFn warm outcomes = some r
    ∧ r.execution_times = successTimes outcomes
    ∧ r.result_counts = successCounts outcomes
    ∧ r.avg_time = listMean (successTimes outcomes)
    ∧ r.min_time = listMin (successTimes outcomes)
    ∧ r.max_time = listMax (successTimes outcomes)
    ∧ r.min_time ≤ r.avg_time
    ∧ r.avg_time ≤ r.max_time
    ∧ ((successTimes outcomes).length = 1 → r.std_dev = 0)
    ∧ r.success_rate = ((successTimes outcomes).length : ℚ) / (outcomes.length : ℚ)
    ∧ 0 ≤ r.success_rate
    ∧ r.success_rate ≤ 1
    ∧ (0 < r.avg_time →
        r.throughput = listMean ((successCounts outcomes).map fun n => (n : ℚ))
          / r.avg_time)
    ∧ runQueryMeasurement sqrtFn warm outcomes
        = runQueryMeasurement sqrtFn warm2 outcomes := by
  have hne : (successTimes outcomes).isEmpty = false := by
    cases hcase : successTimes outcomes with
    | nil => exact absurd hcase h
    | cons a l => rfl
  have hsome : runQueryMeasurement sqrtFn warm outcomes = some
      { execution_times := successTimes outcomes
        result_counts := successCounts outcomes
        avg_time := listMean (successTimes outcomes)
        min_time := listMin (successTimes outcomes)
        max_time := listMax (successTimes outcomes)
        std_dev := if (successTimes outcomes).length > 1 then
            sqrtFn (sampleVariance (successTimes outcomes)) else 0
        throughput := if listMean (successTimes outcomes) > 0 then
            listMean ((successCounts outcomes).map fun n => (n : ℚ))
              / listMean (successTimes outcomes)
          else 0
        success_rate :=
          ((successTimes outcomes).length : ℚ) / (outcomes.length : ℚ) } := by
    unfold runQueryMeasurement runQueryStats
    simp only [hne, Bool.false_eq_true, if_false]
  refine ⟨_, hsome, rfl, rfl, rfl, rfl, rfl, ?_, ?_, ?_, rfl, ?_, ?_, ?_, rfl⟩
  · exact listMin_le_listMean _ h
  · exact listMean_le_listMax _ h
  · intro h1
    simp [h1]
  · have h0 : (0 : ℚ) ≤ ((successTimes outcomes).length : ℚ) := by positivity
    have h0' : (0 : ℚ) ≤ ((outcomes.length : ℚ)) := by positivity
    positivity
  · have hle : (successTimes outcomes).length ≤ outcomes.length :=
      List.length_filterMap_le _ _
    have hpos : 0 < outcomes.length := by
      have : 0 < (successTimes outcomes).length := List.length_pos.mpr h
      omega
    rw [div_le_one (by exact_mod_cast hpos)]
    exact_mod_cast hle
  · intro hpos
    have : (if listMean (successTimes outcomes) > 0 then
        listMean ((successCounts outcomes).map fun n => (n : ℚ))
          / listMean (successTimes outcomes) else 0) =
        listMean ((successCounts outcomes).map fun n => (n : ℚ))
          / listMean (successTimes outcomes) := if_pos hpos
    exact this

/-- Witness for C6 at a concrete outcome list: three iterations, the second
erroring. -/
theorem c6_query_statistics_witness :
    ((runQueryMeasurement (fun _ => 0) []
        [some (2, 10), none, some (4, 30)]).map fun r =>
      (r.avg_time, r.min_time, r.max_time, r.success_rate, r.throughput))
      = some (3, 2, 4, 2 / 3, 20 / 3)
    ∧ listMin (successTimes [some ((2 : ℚ), (10 : Nat)), none, some (4, 30)])
        ≤ listMean (successTimes [some ((2 : ℚ), (10 : Nat)), none, some (4, 30)]) := by
  constructor
  · with_unfolding_all decide
  · obtain ⟨r, hsome, _, _, havg, hmin, _, hminavg, _⟩ :=
      c6_query_statistics (fun _ => 0) [] []
        [some (2, 10), none, some (4, 30)] (by with_unfolding_all decide)
    exact hmin ▸ havg ▸ hminavg

/-- C8: every token CRUD operation traps SDK exceptions and returns a
sentinel — `list_tokens` the empty list, `create_token` / `get_token_info` /
`update_token` `None`, `delete_token` / `export_tokens` `False` — while
`get_org_id` and `get_bucket_id` re-raise after printing; an exception from
`get_org_id` inside `create_token` is still caught there and yields `None`. -/
theorem c8_token_crud_error_sentinels (e : String) (org bucket oid : String)
    (toks : List TokenInfo) (info : TokenInfo)
    (ca : Except String String) (fi : Except String TokenInfo)
    (f : String → Except String TokenInfo) :
    list_tokens (.error e) = []
    ∧ list_tokens (.ok toks) = toks
    ∧ get_token_info (.error e) = none
    ∧ get_token_info (.ok info) = some info
    ∧ create_token (.error e) ca f = none
    ∧ create_token (get_org_id org (.error e)) ca f = none
    ∧ create_token (.ok oid) (.error e) f = none
    ∧ update_token (.error e) fi = none
    ∧ update_token (.ok ()) (.error e) = none
    ∧ delete_token (.error e) = false
    ∧ delete_token (.ok ()) = true
    ∧ export_tokens (.error e) = false
    ∧ get_org_id org (.error e) = .error e
    ∧ get_org_id org (.ok []) = .error ("Organization " ++ org ++ " not found")
    ∧ get_bucket_id bucket (.error e) = .error e
    ∧ get_bucket_id bucket (.ok none)
        = .error ("Bucket " ++ bucket ++ " not found") :=
  ⟨rfl, rfl, rfl, rfl, rfl, rfl, rfl, rfl, rfl, rfl, rfl, rfl, rfl, rfl, rfl, rfl⟩

/-- C9: `define_test_queries` depends on the tester's bucket alone — two
testers with the same bucket produce identical lists — and always yields the
same eight query names, which is exactly the set `run_comprehensive_test`
tests. -/
theorem c9_fixed_query_set (t1 t2 : QueryPerformanceTester)
    (h : t1.bucket = t2.bucket) :
    define_test_queries t1 = define_test_queries t2
    ∧ (define_test_queries t1).map (fun q => q.name) =
        ["simple_recent_data", "time_range_aggregation", "group_by_patient",
         "complex_aggregation", "alert_detection", "join_simulation",
         "large_time_range", "high_cardinality"]
    ∧ (define_test_queries t1).length = 8
    ∧ run_comprehensive_test_queries t1 = define_test_queries t1 := by
  refine ⟨?_, rfl, rfl, rfl⟩
  unfold define_test_queries
  rw [h]

/-- Witness for C9: two testers differing in URL, token and org but sharing
the bucket produce the same query list. -/
theorem c9_fixed_query_set_witness :
    define_test_queries
        ⟨"http://localhost:8086", "adminTokenA", "HealthIoT", "health_iot_metrics"⟩
      = define_test_queries
        ⟨"http://other-host:9999", "readTokenB", "OtherOrg", "health_iot_metrics"⟩ :=
  (c9_fixed_query_set
    ⟨"http://localhost:8086", "adminTokenA", "HealthIoT", "health_iot_metrics"⟩
    ⟨"http://other-host:9999", "readTokenB", "OtherOrg", "health_iot_metrics"⟩
    rfl).1

theorem getD_mem_of_lt {α : Type} (l : List α) (i : Nat) (d : α)
    (h : i < l.length) : l.getD i d ∈ l := by
  rw [List.getD_eq_getElem?_getD, List.getElem?_eq_getElem h]
  exact List.getElem_mem h

theorem clamp_round2_bounds (mn mx b : ℚ) (hmn : round2 mn = mn)
    (hmx : round2 mx = mx) (hle : mn ≤ mx) :
    mn ≤ round2 (max mn (min mx b)) ∧ round2 (max mn (min mx b)) ≤ mx := by
  have h1 : mn ≤ max mn (min mx b) := le_max_left _ _
  have h2 : max mn (min mx b) ≤ mx := max_le hle (min_le_left _ _)
  constructor
  · calc mn = round2 mn := hmn.symm
      _ ≤ round2 (max mn (min mx b)) := round2_mono h1
  · calc round2 (max mn (min mx b)) ≤ round2 mx := round2_mono h2
      _ = mx := hmx

theorem value_bounds_aux (v : String) (hv : v ∈ vital_types) (b : ℚ) :
    (vital_ranges v).1 ≤ round2 (max (vital_ranges v).1 (min (vital_ranges v).2.1 b))
    ∧ round2 (max (vital_ranges v).1 (min (vital_ranges v).2.1 b))
        ≤ (vital_ranges v).2.1 := by
  fin_cases hv <;>
    exact clamp_round2_bounds _ _ b (by with_unfolding_all decide)
      (by with_unfolding_all decide) (by with_unfolding_all decide)

theorem generateRecord_vital_mem (i : Nat) (d : Draw) :
    (generateRecord i d).vital_type ∈ vital_types := by
  have h : (generateRecord i d).vital_type
      = vital_types.getD (d.vitalIdx % vital_types.length) "" := rfl
  rw [h]
  exact getD_mem_of_lt _ _ _ (Nat.mod_lt _ (by norm_num [vital_types]))

theorem generateRecord_value_bounds (i : Nat) (d : Draw) :
    (vital_ranges (generateRecord i d).vital_type).1 ≤ (generateRecord i d).value
    ∧ (generateRecord i d).value
        ≤ (vital_ranges (generateRecord i d).vital_type).2.1 := by
  have hval : (generateRecord i d).value
      = round2 (max (vital_ranges (generateRecord i d).vital_type).1
          (min (vital_ranges (generateRecord i d).vital_type).2.1
            (base_value i d (generateRecord i d).vital_type))) := rfl
  rw [hval]
  exact value_bounds_aux _ (generateRecord_vital_mem i d) _

theorem alert_flag_of_binary (d : Draw) (v : String) (val : ℚ) :
    alert_flag_of d v val = 0 ∨ alert_flag_of d v val = 1 := by
  unfold alert_flag_of
  split_ifs <;> simp

theorem patients_pattern : patients.all matchesPatientPattern = true := by
  with_unfolding_all decide

theorem vital_ranges_min_pos (v : String) (hv : v ∈ vital_types) :
    0 < (vital_ranges v).1 := by
  fin_cases hv <;> with_unfolding_all decide

theorem isMonotonic_double_range' :
    ∀ (n s : Nat), isMonotonicTimestamps ((List.range' s n).map fun i => 2 * i) = true := by
  intro n
  induction n with
  | zero => intro s; rfl
  | succ m ih =>
    intro s
    rw [List.range'_succ, List.map_cons]
    cases m with
    | zero => rfl
    | succ m' =>
      rw [List.range'_succ, List.map_cons]
      simp only [isMonotonicTimestamps, Bool.and_eq_true]
      constructor
      · exact decide_eq_true (by omega)
      · have h := ih (s + 1)
        rwa [List.range'_succ, List.map_cons] at h

/-- C10: for every `num_records ≥ 1` and every sequence of random draws, the
generated dataset has every value clamped (after rounding) into the declared
`(min, max)` range of its vital type — hence never negative — timestamps on
the increasing 2-second grid, binary alert flags, and patient ids matching
`PATIENT_\d{5}`, so `validate_dataset` returns `True` on it. -/
theorem c10_generated_dataset_validates (n : Nat) (draws : Nat → Draw)
    (h : 1 ≤ n) :
    (∀ r ∈ generate_health_iot_data n draws,
      (vital_ranges r.vital_type).1 ≤ r.value
        ∧ r.value ≤ (vital_ranges r.vital_type).2.1
        ∧ 0 < r.value)
    ∧ validate_dataset (generate_health_iot_data n draws) = true := by
  have hrec : ∀ r ∈ generate_health_iot_data n draws,
      ∃ i, r = generateRecord i (draws i) := by
    intro r hr
    obtain ⟨i, _, rfl⟩ := List.mem_map.mp hr
    exact ⟨i, rfl⟩
  have hbounds : ∀ r ∈ generate_health_iot_data n draws,
      (vital_ranges r.vital_type).1 ≤ r.value
        ∧ r.value ≤ (vital_ranges r.vital_type).2.1
        ∧ 0 < r.value := by
    intro r hr
    obtain ⟨i, rfl⟩ := hrec r hr
    obtain ⟨h1, h2⟩ := generateRecord_value_bounds i (draws i)
    have hpos := vital_ranges_min_pos _ (generateRecord_vital_mem i (draws i))
    exact ⟨h1, h2, lt_of_lt_of_le hpos h1⟩
  refine ⟨hbounds, ?_⟩
  unfold validate_dataset
  simp only [Bool.true_and, Bool.and_eq_true]
  refine ⟨⟨⟨?_, ?_⟩, ?_⟩, ?_⟩
  · have hmap : (generate_health_iot_data n draws).map (fun r => r.timestamp)
        = (List.range' 0 n).map fun i => 2 * i := by
      unfold generate_health_iot_data
      rw [List.range_eq_range', List.map_map]
      rfl
    rw [hmap]
    exact isMonotonic_double_range' n 0
  · rw [List.all_eq_true]
    intro r hr
    have := (hbounds r hr).2.2
    simp only [Bool.or_eq_true, decide_eq_true_eq]
    exact Or.inl (le_of_lt this)
  · rw [List.all_eq_true]
    intro r hr
    obtain ⟨i, rfl⟩ := hrec r hr
    have halert : (generateRecord i (draws i)).alert_flag
        = alert_flag_of (draws i) (vital_types.getD ((draws i).vitalIdx % vital_types.length) "")
            (max (vital_ranges (vital_types.getD ((draws i).vitalIdx % vital_types.length) "")).1
              (min (vital_ranges (vital_types.getD ((draws i).vitalIdx % vital_types.length) "")).2.1
                (base_value i (draws i)
                  (vital_types.getD ((draws i).vitalIdx % vital_types.length) "")))) := rfl
    simp only [Bool.or_eq_true, decide_eq_true_eq]
    rw [halert]
    exact alert_flag_of_binary _ _ _
  · rw [List.all_eq_true]
    intro r hr
    obtain ⟨i, rfl⟩ := hrec r hr
    have hpat : (generateRecord i (draws i)).patient_id
        = patients.getD ((draws i).patientIdx % patients.length) "" := rfl
    rw [hpat]
    have hmem : patients.getD ((draws i).patientIdx % patients.length) "" ∈ patients :=
      getD_mem_of_lt _ _ _ (Nat.mod_lt _ (by norm_num [patients]))
    exact List.all_eq_true.mp patients_pattern _ hmem

/-- Witness for C10 at three records and constant draws. -/
theorem c10_generated_dataset_validates_witness :
    validate_dataset
      (generate_health_iot_data 3 (fun _ => ⟨0, 0, 0, 0, 0, 0⟩)) = true :=
  (c10_generated_dataset_validates 3 (fun _ => ⟨0, 0, 0, 0, 0, 0⟩)
    (by norm_num)).2
